import Mathlib

/-!
Verification of the ns-3 Pair attribute implementation (`src/core/model/pair.h`).

The embedding models:
* C++ `std::string` as `List Char`;
* `std::istringstream` extraction (`iss >> value`) with its exact failure
  semantics: constructing the sentry skips whitespace, and if the stream is
  exhausted the failbit is set and the target variable is left unchanged;
* `AttributeChecker` / `PairChecker` as records, with `Ptr` nullability as
  `Option` and `DynamicCast` as partial casts;
* `PairValue<A,B>` with its two (possibly null) component pointers;
* a second, heap-based model of `PairValue` (stores plus addresses) used to
  state pointer-level independence of `Copy`;
* undefined behaviour (dereferencing a null `Ptr`) as the `crash` outcome.
-/

namespace NS3Pair

/-- Whitespace per the default C locale `isspace`, used by `operator>>`. -/
def isWS (c : Char) : Bool :=
  c == ' ' || c == '\t' || c == '\n' || c == '\r' || c == '\x0b' || c == '\x0c'

/-- State of a `std::istringstream`: the unread buffer and the fail flag. -/
structure IStream where
  buf : List Char
  fail : Bool
deriving DecidableEq

/-- One `iss >> value` extraction on a `std::string` target.
If the stream is already failed, nothing happens.  Otherwise the sentry
skips whitespace; if nothing remains, the failbit is set and the target
variable keeps its previous contents (the C++ sentry fails before
`str.erase()` runs); otherwise the maximal run of non-whitespace
characters becomes the new contents of the variable. -/
def IStream.extract (st : IStream) (var : List Char) : IStream × List Char :=
  if st.fail then (st, var)
  else
    match st.buf.dropWhile (fun c => isWS c) with
    | [] => (⟨[], true⟩, var)
    | c :: cs =>
      (⟨(c :: cs).dropWhile (fun d => !isWS d), false⟩,
       (c :: cs).takeWhile (fun d => !isWS d))

/-- The whitespace-separated tokens of a string, in order (what repeated
successful `>>` extractions would produce). -/
def cppTokens : List Char → List (List Char)
  | [] => []
  | c :: cs =>
    if isWS c then cppTokens cs
    else (c :: cs.takeWhile (fun d => !isWS d)) :: cppTokens (cs.dropWhile (fun d => !isWS d))
termination_by l => l.length
decreasing_by
  · simp only [List.length_cons]; omega
  · have h := (List.dropWhile_sublist (l := cs) (fun d => !isWS d)).length_le
    simp only [List.length_cons]; omega

/-- Outcome of running a C++ member function: either a normal result or
undefined behaviour (here: dereferencing a null `Ptr`). -/
inductive CppOutcome (σ : Type) where
  | crash : CppOutcome σ
  | ok : σ → CppOutcome σ
deriving DecidableEq

/-- A component `AttributeChecker`: `CreateValidValue` materializes a
type-erased attribute value (of erased type `V`) from accepted text. -/
structure AttrChecker (V : Type) where
  createValidValue : List Char → Option V

/-- `ns3::internal::PairChecker<A,B>` state: the two component checkers,
each a possibly-null `Ptr<const AttributeChecker>`. -/
structure PairCheckerS (V : Type) where
  m_firstchecker : Option (AttrChecker V)
  m_secondchecker : Option (AttrChecker V)

/-- The default `internal::PairChecker` constructor: both member checkers
start as `nullptr`. -/
def PairCheckerS.mkDefault {V : Type} : PairCheckerS V :=
  ⟨none, none⟩

/-- `internal::PairChecker::SetCheckers`: installs both component checkers. -/
def PairCheckerS.SetCheckers {V : Type} (_pc : PairCheckerS V)
    (f s : Option (AttrChecker V)) : PairCheckerS V :=
  ⟨f, s⟩

/-- `internal::PairChecker::GetCheckers`: returns the current checker pair. -/
def PairCheckerS.GetCheckers {V : Type} (pc : PairCheckerS V) :
    Option (AttrChecker V) × Option (AttrChecker V) :=
  (pc.m_firstchecker, pc.m_secondchecker)

/-- The `Ptr<const AttributeChecker>` argument of `DeserializeFromString` /
`SerializeToString`: it is either (a pointer to) a `PairChecker`, or some
other checker (including the null pointer) for which the
`DynamicCast<const PairChecker>` fails. -/
inductive OuterChecker (V : Type) where
  | pair : PairCheckerS V → OuterChecker V
  | notPair : OuterChecker V

/-- `DynamicCast<const PairChecker>(checker)`. -/
def dynCastPairChecker {V : Type} : OuterChecker V → Option (PairCheckerS V)
  | .pair pc => some pc
  | .notPair => none

/-- The capabilities of a component attribute class `A` used by
`PairValue<A,B>`: `A::Get`, the `Create<A>(v)` / `Create<A>()` constructors,
`DynamicCast<A>` from the erased value universe `V`, `A::Copy` (type-erased
result), and `A::SerializeToString`. -/
structure Comp (V α σ : Type) where
  get : α → σ
  create : σ → α
  createDefault : α
  cast : V → Option α
  copy : α → V
  serialize : α → OuterChecker V → List Char

/-- `PairValue<A,B>::m_value`: a pair of possibly-null component pointers. -/
structure PairValueS (α β : Type) where
  m_first : Option α
  m_second : Option β
deriving DecidableEq

/-- The `PairValue()` default constructor: `m_value` is set to
`(Create<A>(), Create<B>())`, so both components are fresh defaults. -/
def PairValueS.mkDefaultCtor {V α β σa σb : Type}
    (ca : Comp V α σa) (cb : Comp V β σb) : PairValueS α β :=
  ⟨some ca.createDefault, some cb.createDefault⟩

/-- `PairValue::Set`: discards the current components and installs
`(Create<A>(value.first), Create<B>(value.second))`. -/
def PairValueS.Set {V α β σa σb : Type}
    (ca : Comp V α σa) (cb : Comp V β σb) (_pv : PairValueS α β)
    (value : σa × σb) : PairValueS α β :=
  ⟨some (ca.create value.1), some (cb.create value.2)⟩

/-- The `PairValue(const result_type&)` "import" constructor: the members
start default-initialized (null) and the body calls `Set(value)`. -/
def PairValueS.mkFromResult {V α β σa σb : Type}
    (ca : Comp V α σa) (cb : Comp V β σb) (value : σa × σb) : PairValueS α β :=
  PairValueS.Set ca cb ⟨none, none⟩ value

/-- `PairValue::Get`: `(m_value.first->Get(), m_value.second->Get())`;
dereferencing a null component is undefined behaviour (`crash`). -/
def PairValueS.Get {V α β σa σb : Type}
    (ca : Comp V α σa) (cb : Comp V β σb) (pv : PairValueS α β) :
    CppOutcome (σa × σb) :=
  match pv.m_first, pv.m_second with
  | some a, some b => .ok (ca.get a, cb.get b)
  | _, _ => .crash

/-- `PairValue::SerializeToString`: streams
`m_value.first->SerializeToString(checker)`, one `" "`, then
`m_value.second->SerializeToString(checker)`; null components crash. -/
def PairValueS.SerializeToString {V α β σa σb : Type}
    (ca : Comp V α σa) (cb : Comp V β σb) (pv : PairValueS α β)
    (checker : OuterChecker V) : CppOutcome (List Char) :=
  match pv.m_first, pv.m_second with
  | some a, some b =>
    .ok (ca.serialize a checker ++ [' '] ++ cb.serialize b checker)
  | _, _ => .crash

/-- `PairValue::DeserializeFromString`, transcribed line by line:
`DynamicCast` the checker; build an `istringstream` over the input and
extract into `value`; call `GetCheckers().first->CreateValidValue`
(null component checker means a null dereference, i.e. `crash`);
`DynamicCast<A>` the produced value; extract again and do the same with
the second checker and `DynamicCast<B>`; only then overwrite `m_value`. -/
def PairValueS.DeserializeFromString {V α β σa σb : Type}
    (ca : Comp V α σa) (cb : Comp V β σb) (pv : PairValueS α β)
    (value : List Char) (checker : OuterChecker V) :
    CppOutcome (Bool × PairValueS α β) :=
  match dynCastPairChecker checker with
  | none => .ok (false, pv)
  | some pchecker =>
    match (⟨value, false⟩ : IStream).extract value with
    | (iss1, value1) =>
      match pchecker.GetCheckers.1 with
      | none => .crash
      | some fchk =>
        match fchk.createValidValue value1 with
        | none => .ok (false, pv)
        | some first =>
          match ca.cast first with
          | none => .ok (false, pv)
          | some firstattr =>
            match iss1.extract value1 with
            | (_iss2, value2) =>
              match pchecker.GetCheckers.2 with
              | none => .crash
              | some schk =>
                match schk.createValidValue value2 with
                | none => .ok (false, pv)
                | some second =>
                  match cb.cast second with
                  | none => .ok (false, pv)
                  | some secondattr =>
                    .ok (true, ⟨some firstattr, some secondattr⟩)

/-- The name built by `MakePairChecker<A,B>()`:
`"ns3::PairValue<" + typeid(first_type).name() + ", " +
typeid(second_type).name() + ">"`, where `typeidName` models
`typeid(·).name()` on the component pointer types. -/
def MakePairCheckerName {τ : Type} (typeidName : τ → List Char) (a b : τ) :
    List Char :=
  "ns3::PairValue<".data ++ typeidName a ++ ", ".data ++ typeidName b ++ ">".data

/-! ### Heap-based model

`Ptr<A>` objects live in a store and a `PairValue` holds two (possibly
null) addresses.  This refines the value-level model above and lets us
state that `Copy` produces components at fresh addresses, so that a later
`Set` on one `PairValue` (which installs freshly created objects) cannot
affect what the other one reads. -/

/-- A store of component objects; addresses are list indices, allocation
appends. -/
structure Store (γ : Type) where
  cells : List γ
deriving DecidableEq

/-- Allocate a fresh object, returning the new store and its address. -/
def Store.alloc {γ : Type} (st : Store γ) (x : γ) : Store γ × Nat :=
  (⟨st.cells ++ [x]⟩, st.cells.length)

/-- Dereference an address. -/
def Store.read {γ : Type} (st : Store γ) (p : Nat) : Option γ :=
  st.cells[p]?

/-- The world: one store of `A` objects and one of `B` objects. -/
structure Wld (α β : Type) where
  sa : Store α
  sb : Store β
deriving DecidableEq

/-- Allocate an `A` object. -/
def Wld.allocA {α β : Type} (w : Wld α β) (x : α) : Wld α β × Nat :=
  (⟨(w.sa.alloc x).1, w.sb⟩, (w.sa.alloc x).2)

/-- Allocate a `B` object. -/
def Wld.allocB {α β : Type} (w : Wld α β) (x : β) : Wld α β × Nat :=
  (⟨w.sa, (w.sb.alloc x).1⟩, (w.sb.alloc x).2)

/-- `PairValue::m_value` in the heap model: two possibly-null addresses. -/
structure PairValueH where
  firstP : Option Nat
  secondP : Option Nat
deriving DecidableEq

/-- The `PairValue()` default constructor in the heap model:
`Create<A>()` and `Create<B>()` allocate fresh default objects. -/
def mkDefaultH {V α β σa σb : Type} (ca : Comp V α σa) (cb : Comp V β σb)
    (w : Wld α β) : Wld α β × PairValueH :=
  (((w.allocA ca.createDefault).1.allocB cb.createDefault).1,
   ⟨some (w.allocA ca.createDefault).2,
    some ((w.allocA ca.createDefault).1.allocB cb.createDefault).2⟩)

/-- `PairValue::Set` in the heap model: `Create<A>(v.first)` and
`Create<B>(v.second)` allocate fresh objects and `m_value` is repointed
at them; no existing cell is written. -/
def SetH {V α β σa σb : Type} (ca : Comp V α σa) (cb : Comp V β σb)
    (w : Wld α β) (v : σa × σb) : Wld α β × PairValueH :=
  (((w.allocA (ca.create v.1)).1.allocB (cb.create v.2)).1,
   ⟨some (w.allocA (ca.create v.1)).2,
    some ((w.allocA (ca.create v.1)).1.allocB (cb.create v.2)).2⟩)

/-- `PairValue::Get` in the heap model: dereference both component
addresses; a null or dangling address is undefined behaviour. -/
def GetH {V α β σa σb : Type} (ca : Comp V α σa) (cb : Comp V β σb)
    (w : Wld α β) (pv : PairValueH) : CppOutcome (σa × σb) :=
  match pv.firstP, pv.secondP with
  | some pa, some pb =>
    match w.sa.read pa, w.sb.read pb with
    | some a, some b => .ok (ca.get a, cb.get b)
    | _, _ => .crash
  | _, _ => .crash

/-- `PairValue::Copy` in the heap model.  `Create<PairValue<A,B>>()` first
default-constructs the result (allocating default components); if
`m_value.first` is non-null the copy's `m_value` is replaced by
`(DynamicCast<A>(first->Copy()), DynamicCast<B>(second->Copy()))`, each
`Copy` allocating a fresh object (a failed cast leaves a null pointer);
with `first` non-null but `second` null, `second->Copy()` is a null
dereference. -/
def CopyH {V α β σa σb : Type} (ca : Comp V α σa) (cb : Comp V β σb)
    (w : Wld α β) (pv : PairValueH) : CppOutcome (Wld α β × PairValueH) :=
  match pv.firstP with
  | none => .ok (mkDefaultH ca cb w)
  | some pa =>
    match pv.secondP with
    | none => .crash
    | some pb =>
      match (mkDefaultH ca cb w).1.sa.read pa, (mkDefaultH ca cb w).1.sb.read pb with
      | some a, some b =>
        match ca.cast (ca.copy a), cb.cast (cb.copy b) with
        | none, none => .ok ((mkDefaultH ca cb w).1, ⟨none, none⟩)
        | some a1, none =>
          .ok (((mkDefaultH ca cb w).1.allocA a1).1,
               ⟨some ((mkDefaultH ca cb w).1.allocA a1).2, none⟩)
        | none, some b1 =>
          .ok (((mkDefaultH ca cb w).1.allocB b1).1,
               ⟨none, some ((mkDefaultH ca cb w).1.allocB b1).2⟩)
        | some a1, some b1 =>
          .ok ((((mkDefaultH ca cb w).1.allocA a1).1.allocB b1).1,
               ⟨some ((mkDefaultH ca cb w).1.allocA a1).2,
                some (((mkDefaultH ca cb w).1.allocA a1).1.allocB b1).2⟩)
      | _, _ => .crash

/-- Store extension: every readable cell keeps its contents. -/
def Wld.Ext {α β : Type} (w w' : Wld α β) : Prop :=
  (∀ p x, w.sa.read p = some x → w'.sa.read p = some x) ∧
  (∀ p x, w.sb.read p = some x → w'.sb.read p = some x)

/-! ### Concrete fixtures used by witnesses and counterexamples

A small closed universe of type-erased attribute values, with an
integer-like component, a boolean component, and a string-like checker
that accepts every token (a checker accepting a broader family than any
single component type). -/

/-- Erased attribute-value universe for the concrete test instances. -/
inductive TVal where
  | n : Nat → TVal
  | b : Bool → TVal
  | raw : List Char → TVal
deriving DecidableEq

/-- Decimal parser for the integer-like test checker. -/
def parseNatDigits (l : List Char) : Option Nat :=
  if l.isEmpty then none
  else l.foldl
    (fun acc c => acc.bind fun k =>
      if c.isDigit then some (k * 10 + (c.toNat - 48)) else none)
    (some 0)

/-- Integer-like component class (plays the role of template parameter `A`). -/
def natComp : Comp TVal Nat Nat where
  get := fun k => k
  create := fun k => k
  createDefault := 0
  cast := fun v => match v with | .n k => some k | _ => none
  copy := fun k => .n k
  serialize := fun k _ => Nat.toDigits 10 k

/-- Checker for the integer-like component: accepts decimal tokens. -/
def natChecker : AttrChecker TVal :=
  ⟨fun l => (parseNatDigits l).map TVal.n⟩

/-- Boolean component class (plays the role of template parameter `B`). -/
def boolComp : Comp TVal Bool Bool where
  get := fun x => x
  create := fun x => x
  createDefault := false
  cast := fun v => match v with | .b x => some x | _ => none
  copy := fun x => .b x
  serialize := fun x _ => if x then "true".data else "false".data

/-- Checker for the boolean component. -/
def boolChecker : AttrChecker TVal :=
  ⟨fun l =>
    if l = "true".data then some (.b true)
    else if l = "false".data then some (.b false)
    else none⟩

/-- A checker that accepts every token but produces a raw-string value:
it accepts a broader family than the integer or boolean component type,
so its values fail the component `DynamicCast`. -/
def rawChecker : AttrChecker TVal :=
  ⟨fun l => some (.raw l)⟩

/-- A Pair checker wired with the integer and boolean checkers. -/
def pcNatBool : PairCheckerS TVal :=
  PairCheckerS.mkDefault.SetCheckers (some natChecker) (some boolChecker)

/-- A Pair checker wired with two integer checkers. -/
def pcNatNat : PairCheckerS TVal :=
  PairCheckerS.mkDefault.SetCheckers (some natChecker) (some natChecker)

/-- A prior Pair value with known content `(7, true)`, used to observe
(non-)mutation across failing deserializations. -/
def pvPrior : PairValueS Nat Bool :=
  PairValueS.mkFromResult natComp boolComp (7, true)

/-- Model of `typeid(·).name()` for a two-type universe, used by the C9
witness. -/
def tnBool : Bool → List Char :=
  fun t => if t then "X".data else "Y".data

/-! ### Helper lemmas about tokenization and extraction -/

/-- The first element surviving `dropWhile p` does not satisfy `p`. -/
theorem head_dropWhile_false {α : Type} (p : α → Bool) :
    ∀ (l : List α) {c : α} {cs : List α}, l.dropWhile p = c :: cs → p c = false := by
  intro l
  induction l with
  | nil => intro c cs h; simp [List.dropWhile] at h
  | cons x xs ih =>
    intro c cs h
    by_cases hx : p x = true
    · rw [List.dropWhile_cons_of_pos hx] at h; exact ih h
    · rw [List.dropWhile_cons_of_neg hx] at h
      cases h; simpa using hx

/-- Tokenizing is unaffected by leading whitespace removal. -/
theorem cppTokens_dropWhileWS (l : List Char) :
    cppTokens (l.dropWhile (fun c => isWS c)) = cppTokens l := by
  induction l with
  | nil => rfl
  | cons c cs ih =>
    by_cases hc : isWS c = true
    · rw [List.dropWhile_cons_of_pos hc, ih]
      simp [cppTokens, hc]
    · rw [List.dropWhile_cons_of_neg hc]

/-- A successful extraction returns the first token and leaves a buffer
holding exactly the remaining tokens. -/
theorem extract_of_tokens_cons (buf t : List Char) (ts : List (List Char))
    (var : List Char) (h : cppTokens buf = t :: ts) :
    ∃ buf', IStream.extract ⟨buf, false⟩ var = (⟨buf', false⟩, t) ∧
      cppTokens buf' = ts := by
  cases hd : buf.dropWhile (fun c => isWS c) with
  | nil =>
    have hnil : cppTokens buf = [] := by
      rw [← cppTokens_dropWhileWS buf, hd]
      simp [cppTokens]
    rw [hnil] at h
    cases h
  | cons c cs =>
    have hc : isWS c = false := head_dropWhile_false _ buf hd
    have hcb : (fun d => !isWS d) c = true := by simp [hc]
    have htoks : cppTokens buf =
        (c :: cs.takeWhile (fun d => !isWS d)) ::
          cppTokens (cs.dropWhile (fun d => !isWS d)) := by
      rw [← cppTokens_dropWhileWS buf, hd]
      simp [cppTokens, hc]
    rw [htoks] at h
    refine ⟨cs.dropWhile (fun d => !isWS d), ?_, ?_⟩
    · rw [← (List.cons.inj h).1]
      simp only [IStream.extract, hd, Bool.false_eq_true, if_false]
      rw [List.dropWhile_cons_of_pos (p := fun d => !isWS d) hcb,
          List.takeWhile_cons_of_pos (p := fun d => !isWS d) hcb]
    · exact (List.cons.inj h).2

/-- If the extraction sentry finds nothing (no tokens left), the failbit
is set and the variable is unchanged. -/
theorem extract_of_tokens_nil (buf var : List Char) (h : cppTokens buf = []) :
    IStream.extract ⟨buf, false⟩ var = (⟨[], true⟩, var) := by
  cases hd : buf.dropWhile (fun c => isWS c) with
  | nil => simp [IStream.extract, hd]
  | cons c cs =>
    have hc : isWS c = false := head_dropWhile_false _ buf hd
    have htoks : cppTokens buf =
        (c :: cs.takeWhile (fun d => !isWS d)) ::
          cppTokens (cs.dropWhile (fun d => !isWS d)) := by
      rw [← cppTokens_dropWhileWS buf, hd]
      simp [cppTokens, hc]
    rw [htoks] at h
    cases h

/-! ### Helper lemmas about `DeserializeFromString` -/

/-- The three possible shapes of a `DeserializeFromString` outcome: a
crash, a `false` return carrying the untouched `m_value`, or a `true`
return carrying two freshly installed components. -/
theorem deser_cases {V α β σa σb : Type} (ca : Comp V α σa) (cb : Comp V β σb)
    (pv : PairValueS α β) (value : List Char) (checker : OuterChecker V) :
    PairValueS.DeserializeFromString ca cb pv value checker = .crash ∨
    PairValueS.DeserializeFromString ca cb pv value checker = .ok (false, pv) ∨
    ∃ a b, PairValueS.DeserializeFromString ca cb pv value checker =
      .ok (true, ⟨some a, some b⟩) := by
  unfold PairValueS.DeserializeFromString
  repeat' split
  all_goals first
  | exact Or.inl rfl
  | exact Or.inr (Or.inl rfl)
  | exact Or.inr (Or.inr ⟨_, _, rfl⟩)

/-- Every early-return path of `DeserializeFromString` that yields `false`
hands back the receiver's `m_value` untouched. -/
theorem deser_false_pres {V α β σa σb : Type} (ca : Comp V α σa) (cb : Comp V β σb)
    (pv : PairValueS α β) (value : List Char) (checker : OuterChecker V)
    (pv' : PairValueS α β)
    (h : PairValueS.DeserializeFromString ca cb pv value checker = .ok (false, pv')) :
    pv' = pv := by
  rcases deser_cases ca cb pv value checker with hc | hc | ⟨a, b, hc⟩ <;>
    rw [hc] at h <;> simp_all

/-- With both component checkers set, `DeserializeFromString` always
returns a boolean (it never dereferences a null checker). -/
theorem deser_no_crash {V α β σa σb : Type} (ca : Comp V α σa) (cb : Comp V β σb)
    (pv : PairValueS α β) (value : List Char) (pc : PairCheckerS V)
    (fchk schk : AttrChecker V)
    (hf : pc.m_firstchecker = some fchk) (hs : pc.m_secondchecker = some schk) :
    ∃ b pv', PairValueS.DeserializeFromString ca cb pv value (.pair pc) =
      .ok (b, pv') := by
  unfold PairValueS.DeserializeFromString
  simp only [dynCastPairChecker, PairCheckerS.GetCheckers, hf, hs]
  repeat' split
  all_goals exact ⟨_, _, rfl⟩

/-- When the input holds at least two tokens and both tokens are accepted
by their component checkers with successful component casts, the
deserialization succeeds and installs exactly the two decoded components,
whatever tokens remain unread. -/
theorem deser_ok_of_two_tokens {V α β σa σb : Type} (ca : Comp V α σa)
    (cb : Comp V β σb) (pv : PairValueS α β) (value : List Char)
    (pc : PairCheckerS V) (fchk schk : AttrChecker V) (t0 t1 : List Char)
    (ts : List (List Char)) (v0 : V) (a0 : α) (v1 : V) (b1 : β)
    (htoks : cppTokens value = t0 :: t1 :: ts)
    (hf : pc.m_firstchecker = some fchk) (hs : pc.m_secondchecker = some schk)
    (hv0 : fchk.createValidValue t0 = some v0) (ha0 : ca.cast v0 = some a0)
    (hv1 : schk.createValidValue t1 = some v1) (hb1 : cb.cast v1 = some b1) :
    PairValueS.DeserializeFromString ca cb pv value (.pair pc) =
      .ok (true, ⟨some a0, some b1⟩) := by
  obtain ⟨buf1, he1, ht1⟩ := extract_of_tokens_cons value t0 (t1 :: ts) value htoks
  obtain ⟨buf2, he2, ht2⟩ := extract_of_tokens_cons buf1 t1 ts t0 ht1
  unfold PairValueS.DeserializeFromString
  simp only [dynCastPairChecker, PairCheckerS.GetCheckers, he1, he2,
             hf, hs, hv0, ha0, hv1, hb1]

/-! ### Token shape of a serialized pair -/

/-- `takeWhile` runs past a block whose elements all satisfy `p`. -/
theorem takeWhile_append_all {γ : Type} (p : γ → Bool) (l r : List γ)
    (h : ∀ c ∈ l, p c = true) :
    (l ++ r).takeWhile p = l ++ r.takeWhile p := by
  induction l with
  | nil => simp
  | cons x xs ih =>
    have hx : p x = true := h x (by simp)
    simp only [List.cons_append, List.takeWhile_cons_of_pos hx, List.cons_inj_right]
    exact ih fun c hc => h c (by simp [hc])

/-- `dropWhile` drops a whole block whose elements all satisfy `p`. -/
theorem dropWhile_append_all {γ : Type} (p : γ → Bool) (l r : List γ)
    (h : ∀ c ∈ l, p c = true) :
    (l ++ r).dropWhile p = r.dropWhile p := by
  induction l with
  | nil => simp
  | cons x xs ih =>
    have hx : p x = true := h x (by simp)
    simp only [List.cons_append, List.dropWhile_cons_of_pos hx]
    exact ih fun c hc => h c (by simp [hc])

/-- A nonempty all-non-whitespace string is one token. -/
theorem cppTokens_single (l : List Char) (hne : l ≠ [])
    (hnw : ∀ c ∈ l, isWS c = false) : cppTokens l = [l] := by
  cases l with
  | nil => exact absurd rfl hne
  | cons c cs =>
    have hc : isWS c = false := hnw c (by simp)
    have h1 : cs.takeWhile (fun d => !isWS d) = cs :=
      List.takeWhile_eq_self_iff.mpr fun x hx => by
        simp [hnw x (by simp [hx])]
    have h2 : cs.dropWhile (fun d => !isWS d) = [] :=
      List.dropWhile_eq_nil_iff.mpr fun x hx => by
        simp [hnw x (by simp [hx])]
    simp [cppTokens, hc, h1, h2]

/-- The wire text of a pair of whitespace-free nonempty tokens joined by
one space tokenizes back to exactly those two tokens. -/
theorem cppTokens_pair (sA sB : List Char) (hA : sA ≠ [])
    (hAw : ∀ c ∈ sA, isWS c = false) (hB : sB ≠ [])
    (hBw : ∀ c ∈ sB, isWS c = false) :
    cppTokens (sA ++ [' '] ++ sB) = [sA, sB] := by
  cases sA with
  | nil => exact absurd rfl hA
  | cons a as =>
    have ha : isWS a = false := hAw a (by simp)
    have hall : ∀ c ∈ as, (fun d => !isWS d) c = true := fun c hc => by
      simp [hAw c (by simp [hc])]
    have hsp : (fun d => !isWS d) ' ' = false := by simp [isWS]
    have htk : (as ++ [' '] ++ sB).takeWhile (fun d => !isWS d) = as := by
      rw [List.append_assoc, takeWhile_append_all _ as _ hall]
      simp [List.takeWhile_cons_of_neg, hsp]
    have hdr : (as ++ [' '] ++ sB).dropWhile (fun d => !isWS d) = ' ' :: sB := by
      rw [List.append_assoc, dropWhile_append_all _ as _ hall]
      simp [List.dropWhile_cons_of_neg, hsp]
    have hws : isWS ' ' = true := by simp [isWS]
    have hrest : cppTokens (' ' :: sB) = [sB] := by
      simp only [cppTokens, hws, if_true]
      exact cppTokens_single sB hB hBw
    simp only [List.cons_append, cppTokens, ha, Bool.false_eq_true, if_false,
               htk, hdr, hrest]

/-! ### Injectivity of the generated checker name -/

/-- Splitting a list at a separator character known to occur in neither
prefix is unambiguous. -/
theorem append_cons_inj {c : Char} :
    ∀ (a a' s s' : List Char), c ∉ a → c ∉ a' →
      a ++ c :: s = a' ++ c :: s' → a = a' ∧ s = s' := by
  intro a
  induction a with
  | nil =>
    intro a' s s' _ h2 h
    cases a' with
    | nil => simpa using h
    | cons y ys =>
      simp only [List.nil_append, List.cons_append, List.cons.injEq] at h
      exact absurd (h.1 ▸ List.mem_cons_self y ys) h2
  | cons x xs ih =>
    intro a' s s' h1 h2 h
    cases a' with
    | nil =>
      simp only [List.cons_append, List.nil_append, List.cons.injEq] at h
      exact absurd (h.1 ▸ List.mem_cons_self x xs) (h.1 ▸ h1)
    | cons y ys =>
      simp only [List.cons_append, List.cons.injEq] at h
      have hx : c ∉ xs := fun hm => h1 (List.mem_cons_of_mem x hm)
      have hy : c ∉ ys := fun hm => h2 (List.mem_cons_of_mem y hm)
      obtain ⟨he, ht⟩ := ih ys s s' hx hy h.2
      exact ⟨by rw [h.1, he], ht⟩

/-! ### Store lemmas for the heap model -/

/-- Allocation never disturbs an existing readable cell. -/
theorem read_alloc_mono {γ : Type} (st : Store γ) (x : γ) (p : Nat) (y : γ)
    (h : st.read p = some y) : (st.alloc x).1.read p = some y := by
  have hlt : p < st.cells.length := by
    rcases List.getElem?_eq_some_iff.mp h with ⟨hl, _⟩
    exact hl
  unfold Store.read at h
  unfold Store.read Store.alloc
  rwa [List.getElem?_append_left hlt]

/-- Reading back the freshly allocated cell. -/
theorem read_alloc_self {γ : Type} (st : Store γ) (x : γ) :
    (st.alloc x).1.read (st.alloc x).2 = some x := by
  unfold Store.read Store.alloc
  exact List.getElem?_concat_length st.cells x

/-- `Ext` is reflexive. -/
theorem ext_refl {α β : Type} (w : Wld α β) : w.Ext w :=
  ⟨fun _ _ h => h, fun _ _ h => h⟩

/-- `Ext` is transitive. -/
theorem ext_trans {α β : Type} {w1 w2 w3 : Wld α β}
    (h12 : w1.Ext w2) (h23 : w2.Ext w3) : w1.Ext w3 :=
  ⟨fun p x h => h23.1 p x (h12.1 p x h),
   fun p x h => h23.2 p x (h12.2 p x h)⟩

/-- Allocating an `A` object is an extension. -/
theorem ext_allocA {α β : Type} (w : Wld α β) (x : α) :
    w.Ext (w.allocA x).1 :=
  ⟨fun p y h => read_alloc_mono w.sa x p y h, fun _ _ h => h⟩

/-- Allocating a `B` object is an extension. -/
theorem ext_allocB {α β : Type} (w : Wld α β) (x : β) :
    w.Ext (w.allocB x).1 :=
  ⟨fun _ _ h => h, fun p y h => read_alloc_mono w.sb x p y h⟩

/-- Default construction of a heap `PairValue` only extends the world. -/
theorem ext_mkDefaultH {V α β σa σb : Type} (ca : Comp V α σa)
    (cb : Comp V β σb) (w : Wld α β) : w.Ext (mkDefaultH ca cb w).1 :=
  ext_trans (ext_allocA w ca.createDefault)
    (ext_allocB (w.allocA ca.createDefault).1 cb.createDefault)

/-- `Set` in the heap model only extends the world. -/
theorem ext_SetH {V α β σa σb : Type} (ca : Comp V α σa) (cb : Comp V β σb)
    (w : Wld α β) (v : σa × σb) : w.Ext (SetH ca cb w v).1 :=
  ext_trans (ext_allocA w (ca.create v.1))
    (ext_allocB (w.allocA (ca.create v.1)).1 (cb.create v.2))

/-- A successful `Get` is stable under world extension. -/
theorem GetH_ok_ext {V α β σa σb : Type} (ca : Comp V α σa) (cb : Comp V β σb)
    {w w' : Wld α β} (pv : PairValueH) (g : σa × σb)
    (hext : w.Ext w') (h : GetH ca cb w pv = .ok g) :
    GetH ca cb w' pv = .ok g := by
  unfold GetH at h ⊢
  rcases pv with ⟨fp, sp⟩
  cases fp with
  | none => simp at h
  | some pa =>
    cases sp with
    | none => simp at h
    | some pb =>
      simp only at h ⊢
      cases hra : w.sa.read pa with
      | none => rw [hra] at h; simp at h
      | some a =>
        cases hrb : w.sb.read pb with
        | none => rw [hra, hrb] at h; simp at h
        | some b =>
          rw [hra, hrb] at h
          rw [hext.1 pa a hra, hext.2 pb b hrb]
          exact h

/-- Reading both component addresses successfully determines `Get`. -/
theorem GetH_pair_of_reads {V α β σa σb : Type} (ca : Comp V α σa)
    (cb : Comp V β σb) (w : Wld α β) (pa pb : Nat) (a : α) (b : β)
    (hra : w.sa.read pa = some a) (hrb : w.sb.read pb = some b) :
    GetH ca cb w ⟨some pa, some pb⟩ = .ok (ca.get a, cb.get b) := by
  unfold GetH
  dsimp only
  rw [hra, hrb]

/-! ## Claim theorems -/

/-- C1: whenever `DeserializeFromString` returns `false` — because the
checker is not a Pair checker, a token is rejected by a component
checker, or a produced value fails the component-type cast — the
`PairValue`'s stored components, and hence the result of `Get`, are
exactly what they were before the call. -/
theorem C1_deserialize_failure_is_atomic {V α β σa σb : Type}
    (ca : Comp V α σa) (cb : Comp V β σb) (pv : PairValueS α β)
    (value : List Char) (checker : OuterChecker V) (pv' : PairValueS α β)
    (h : PairValueS.DeserializeFromString ca cb pv value checker =
      .ok (false, pv')) :
    pv' = pv ∧ PairValueS.Get ca cb pv' = PairValueS.Get ca cb pv := by
  have hp := deser_false_pres ca cb pv value checker pv' h
  exact ⟨hp, by rw [hp]⟩

/-- Witness for C1: the first token of `"abc 2"` is rejected by the
integer checker, `DeserializeFromString` returns `false`, and the prior
value `(7, true)` is untouched. -/
theorem C1_deserialize_failure_is_atomic_witness :
    (PairValueS.DeserializeFromString natComp boolComp pvPrior "abc 2".data
      (.pair pcNatBool) = .ok (false, pvPrior)) ∧
    (pvPrior = pvPrior ∧ PairValueS.Get natComp boolComp pvPrior =
      PairValueS.Get natComp boolComp pvPrior) :=
  ⟨by decide,
   C1_deserialize_failure_is_atomic natComp boolComp pvPrior "abc 2".data
     (.pair pcNatBool) pvPrior (by decide)⟩

/-- C3 evaluation (code bug): on the single-token input `"3"` with a Pair
checker whose two component checkers both accept `"3"`, the second
stream extraction fails and leaves the token variable holding `"3"`, so
the same token is validated again for the second component:
`DeserializeFromString` returns `true` and replaces the prior components
`(7, 9)` with `(3, 3)`, observable through `Get` — the claim (and the
spec's Example 2) requires `false` with the prior state unchanged. -/
theorem C3_single_token_accepted_changes_state :
    (PairValueS.DeserializeFromString natComp natComp
      (PairValueS.mkFromResult natComp natComp (7, 9)) "3".data
      (.pair pcNatNat) = .ok (true, ⟨some 3, some 3⟩)) ∧
    PairValueS.Get natComp natComp (⟨some 3, some 3⟩ : PairValueS Nat Nat) ≠
      PairValueS.Get natComp natComp
        (PairValueS.mkFromResult natComp natComp (7, 9)) := by
  exact ⟨by decide, by decide⟩

/-- C4 counterexample: with a Pair checker whose component checkers are
still unset (null), `DeserializeFromString` dereferences a null
`Ptr<const AttributeChecker>` — undefined behaviour, not a boolean
`false` return. -/
theorem C4_counterexample_null_component_checker :
    (PairValueS.DeserializeFromString natComp natComp
      (PairValueS.mkFromResult natComp natComp (7, 9)) "1 2".data
      (.pair PairCheckerS.mkDefault) = .crash) ∧
    (CppOutcome.crash : CppOutcome (Bool × PairValueS Nat Nat)) ≠
      .ok (false, PairValueS.mkFromResult natComp natComp (7, 9)) := by
  exact ⟨by decide, by decide⟩

/-- C4 (amended): `DeserializeFromString` reports failure solely as a
boolean `false` when the supplied checker is not a Pair checker, and
never crashes when the supplied Pair checker has both component checkers
set — malformed text, token rejection and component-type mismatches all
end in a boolean return; but a Pair checker whose component checkers are
unset (null) leads to a null dereference, not a `false` return. -/
theorem C4_no_crash_when_checkers_set {V α β σa σb : Type}
    (ca : Comp V α σa) (cb : Comp V β σb) :
    (∀ (pv : PairValueS α β) (value : List Char),
      PairValueS.DeserializeFromString ca cb pv value
        (.notPair : OuterChecker V) = .ok (false, pv)) ∧
    (∀ (pv : PairValueS α β) (value : List Char) (pc : PairCheckerS V)
      (fchk schk : AttrChecker V),
      pc.m_firstchecker = some fchk → pc.m_secondchecker = some schk →
      ∃ b pv', PairValueS.DeserializeFromString ca cb pv value (.pair pc) =
        .ok (b, pv')) := by
  constructor
  · intro pv value; rfl
  · intro pv value pc fchk schk hf hs
    exact deser_no_crash ca cb pv value pc fchk schk hf hs

/-- Witness for C4 (amended): a non-Pair checker yields `false`, and a
fully configured Pair checker yields a boolean outcome. -/
theorem C4_no_crash_when_checkers_set_witness :
    (PairValueS.DeserializeFromString natComp boolComp pvPrior "z".data
      (.notPair : OuterChecker TVal) = .ok (false, pvPrior)) ∧
    (pcNatBool.m_firstchecker = some natChecker) ∧
    (pcNatBool.m_secondchecker = some boolChecker) ∧
    (∃ b pv', PairValueS.DeserializeFromString natComp boolComp pvPrior
      "1 true".data (.pair pcNatBool) = .ok (b, pv')) :=
  ⟨(C4_no_crash_when_checkers_set natComp boolComp).1 pvPrior "z".data,
   rfl, rfl,
   (C4_no_crash_when_checkers_set natComp boolComp).2 pvPrior "1 true".data
     pcNatBool natChecker boolChecker rfl rfl⟩

/-- C5: checker acceptance and the component-type cast are two
independent conditions.  Even when a component checker accepts its token
and produces a value, the deserialization returns `false` (leaving the
receiver unchanged) if the produced value's concrete type does not cast
to the expected component type — stated for the first component and for
the second component. -/
theorem C5_type_match_independent_of_acceptance {V α β σa σb : Type}
    (ca : Comp V α σa) (cb : Comp V β σb) (pv : PairValueS α β)
    (value : List Char) (pc : PairCheckerS V) :
    (∀ (fchk : AttrChecker V) (t0 : List Char) (ts : List (List Char)) (v : V),
      cppTokens value = t0 :: ts → pc.m_firstchecker = some fchk →
      fchk.createValidValue t0 = some v → ca.cast v = none →
      PairValueS.DeserializeFromString ca cb pv value (.pair pc) =
        .ok (false, pv)) ∧
    (∀ (fchk schk : AttrChecker V) (t0 t1 : List Char)
      (ts : List (List Char)) (v0 : V) (a0 : α) (v1 : V),
      cppTokens value = t0 :: t1 :: ts → pc.m_firstchecker = some fchk →
      pc.m_secondchecker = some schk →
      fchk.createValidValue t0 = some v0 → ca.cast v0 = some a0 →
      schk.createValidValue t1 = some v1 → cb.cast v1 = none →
      PairValueS.DeserializeFromString ca cb pv value (.pair pc) =
        .ok (false, pv)) := by
  constructor
  · intro fchk t0 ts v htoks hf hv hcast
    obtain ⟨buf1, he1, _⟩ := extract_of_tokens_cons value t0 ts value htoks
    unfold PairValueS.DeserializeFromString
    simp only [dynCastPairChecker, PairCheckerS.GetCheckers, he1, hf, hv, hcast]
  · intro fchk schk t0 t1 ts v0 a0 v1 htoks hf hs hv0 ha0 hv1 hcast
    obtain ⟨buf1, he1, ht1⟩ := extract_of_tokens_cons value t0 (t1 :: ts) value htoks
    obtain ⟨buf2, he2, _⟩ := extract_of_tokens_cons buf1 t1 ts t0 ht1
    unfold PairValueS.DeserializeFromString
    simp only [dynCastPairChecker, PairCheckerS.GetCheckers, he1, he2,
               hf, hs, hv0, ha0, hv1, hcast]

/-- Witness for C5: the broad `rawChecker` accepts the token `"7"` but
produces a raw value that fails the integer component cast, so the call
fails even though the checker accepted the text. -/
theorem C5_type_match_independent_of_acceptance_witness :
    (cppTokens "7 8".data = ["7".data, "8".data]) ∧
    (rawChecker.createValidValue "7".data = some (.raw "7".data)) ∧
    (natComp.cast (.raw "7".data) = none) ∧
    (PairValueS.DeserializeFromString natComp natComp
      (PairValueS.mkFromResult natComp natComp (7, 9)) "7 8".data
      (.pair (PairCheckerS.mkDefault.SetCheckers (some rawChecker)
        (some natChecker))) =
      .ok (false, PairValueS.mkFromResult natComp natComp (7, 9))) :=
  ⟨by simp [cppTokens, isWS], rfl, by decide,
   (C5_type_match_independent_of_acceptance natComp natComp
     (PairValueS.mkFromResult natComp natComp (7, 9)) "7 8".data
     (PairCheckerS.mkDefault.SetCheckers (some rawChecker)
       (some natChecker))).1
     rawChecker "7".data ["8".data] (.raw "7".data)
     (by simp [cppTokens, isWS]) rfl rfl (by decide)⟩

/-- C6: for a `PairValue` with both components present,
`SerializeToString` returns the first component's serialization, exactly
one space character, then the second component's serialization, in that
order, passing the same outer checker argument to both component calls. -/
theorem C6_serialize_first_space_second {V α β σa σb : Type}
    (ca : Comp V α σa) (cb : Comp V β σb) (pv : PairValueS α β)
    (checker : OuterChecker V) (a : α) (b : β)
    (h1 : pv.m_first = some a) (h2 : pv.m_second = some b) :
    PairValueS.SerializeToString ca cb pv checker =
      .ok (ca.serialize a checker ++ [' '] ++ cb.serialize b checker) := by
  unfold PairValueS.SerializeToString
  rw [h1, h2]

/-- Witness for C6: serializing the concrete pair `(3, true)`. -/
theorem C6_serialize_first_space_second_witness :
    (PairValueS.mkFromResult natComp boolComp (3, true)).m_first = some 3 ∧
    (PairValueS.mkFromResult natComp boolComp (3, true)).m_second = some true ∧
    PairValueS.SerializeToString natComp boolComp
      (PairValueS.mkFromResult natComp boolComp (3, true))
      (.notPair : OuterChecker TVal) =
      .ok (natComp.serialize 3 .notPair ++ [' '] ++
        boolComp.serialize true .notPair) :=
  ⟨by decide, by decide,
   C6_serialize_first_space_second natComp boolComp
     (PairValueS.mkFromResult natComp boolComp (3, true))
     (.notPair : OuterChecker TVal) 3 true (by decide) (by decide)⟩

/-- C2: serializing a `PairValue` constructed from a semantic pair
`(x, y)` of valid component values and deserializing the produced text
into a fresh default-constructed `PairValue` of the same component types
with the same Pair checker returns `true`, and the fresh value's `Get`
yields `(x, y)`.  Validity of the component values is expressed by the
component capability contract: each component's serialization is a
nonempty whitespace-free token that its own component checker decodes
back (through the component cast) to a value with the same semantic
content. -/
theorem C2_serialize_deserialize_roundtrip {V α β σa σb : Type}
    (ca : Comp V α σa) (cb : Comp V β σb) (x : σa) (y : σb)
    (pc : PairCheckerS V) (fchk schk : AttrChecker V)
    (hf : pc.m_firstchecker = some fchk) (hs : pc.m_secondchecker = some schk)
    (hAne : ca.serialize (ca.create x) (.pair pc) ≠ [])
    (hAw : ∀ c ∈ ca.serialize (ca.create x) (.pair pc), isWS c = false)
    (hBne : cb.serialize (cb.create y) (.pair pc) ≠ [])
    (hBw : ∀ c ∈ cb.serialize (cb.create y) (.pair pc), isWS c = false)
    (v0 : V) (a0 : α)
    (hv0 : fchk.createValidValue (ca.serialize (ca.create x) (.pair pc)) =
      some v0)
    (ha0 : ca.cast v0 = some a0) (hga : ca.get a0 = x)
    (v1 : V) (b1 : β)
    (hv1 : schk.createValidValue (cb.serialize (cb.create y) (.pair pc)) =
      some v1)
    (hb1 : cb.cast v1 = some b1) (hgb : cb.get b1 = y) :
    ∃ s : List Char,
      PairValueS.SerializeToString ca cb (PairValueS.mkFromResult ca cb (x, y))
        (.pair pc) = .ok s ∧
      PairValueS.DeserializeFromString ca cb (PairValueS.mkDefaultCtor ca cb)
        s (.pair pc) = .ok (true, ⟨some a0, some b1⟩) ∧
      PairValueS.Get ca cb (⟨some a0, some b1⟩ : PairValueS α β) =
        .ok (x, y) := by
  refine ⟨ca.serialize (ca.create x) (.pair pc) ++ [' '] ++
    cb.serialize (cb.create y) (.pair pc), rfl, ?_, ?_⟩
  · have htoks := cppTokens_pair _ _ hAne hAw hBne hBw
    exact deser_ok_of_two_tokens ca cb _ _ pc fchk schk _ _ [] v0 a0 v1 b1
      htoks hf hs hv0 ha0 hv1 hb1
  · unfold PairValueS.Get
    dsimp only
    rw [hga, hgb]

/-- Witness for C2: the pair `(3, true)` with the integer and boolean
components and their checkers round-trips through the text `"3 true"`. -/
theorem C2_serialize_deserialize_roundtrip_witness :
    (natComp.serialize (natComp.create 3) (.pair pcNatBool) = "3".data) ∧
    (natChecker.createValidValue
      (natComp.serialize (natComp.create 3) (.pair pcNatBool)) =
      some (.n 3)) ∧
    (boolChecker.createValidValue
      (boolComp.serialize (boolComp.create true) (.pair pcNatBool)) =
      some (.b true)) ∧
    (∃ s : List Char,
      PairValueS.SerializeToString natComp boolComp
        (PairValueS.mkFromResult natComp boolComp (3, true))
        (.pair pcNatBool) = .ok s ∧
      PairValueS.DeserializeFromString natComp boolComp
        (PairValueS.mkDefaultCtor natComp boolComp) s (.pair pcNatBool) =
        .ok (true, ⟨some 3, some true⟩) ∧
      PairValueS.Get natComp boolComp
        (⟨some 3, some true⟩ : PairValueS Nat Bool) = .ok (3, true)) :=
  ⟨by decide, by decide, by decide,
   C2_serialize_deserialize_roundtrip natComp boolComp 3 true pcNatBool
     natChecker boolChecker rfl rfl (by decide) (by decide) (by decide)
     (by decide) (.n 3) 3 (by decide) (by decide) (by decide)
     (.b true) true (by decide) (by decide) (by decide)⟩

/-- C7 counterexample: `Copy` on a `PairValue` with no components does
not return a `PairValue` with no components — `Create<PairValue<A,B>>()`
default-constructs the result, so the returned value holds two fresh
default components (addresses `some 0` into the extended stores), which
differs from the componentless pair. -/
theorem C7_counterexample_empty_copy_is_default :
    (CopyH natComp boolComp ⟨⟨[]⟩, ⟨[]⟩⟩ ⟨none, none⟩ =
      .ok (⟨⟨[0]⟩, ⟨[false]⟩⟩, ⟨some 0, some 0⟩)) ∧
    (⟨some 0, some 0⟩ : PairValueH) ≠ (⟨none, none⟩ : PairValueH) := by
  exact ⟨by decide, by decide⟩

/-- C7 (amended): `Copy` on a `PairValue` whose components are present
returns a new `PairValue` whose components are deep, independent
duplicates living at fresh addresses: the copy reads the same semantic
content as the original, and a subsequent `Set` (which installs freshly
created objects) changes neither the copy's `Get` result nor the
original's.  `Copy` on a `PairValue` with no first component does not
crash, but returns a default-constructed `PairValue` with both (default)
components present — not a `PairValue` with no components. -/
theorem C7_copy_deep_and_empty_default {V α β σa σb : Type}
    (ca : Comp V α σa) (cb : Comp V β σb) :
    (∀ (w : Wld α β) (pa pb : Nat) (a : α) (b : β) (a1 : α) (b1 : β),
      w.sa.read pa = some a → w.sb.read pb = some b →
      ca.cast (ca.copy a) = some a1 → ca.get a1 = ca.get a →
      cb.cast (cb.copy b) = some b1 → cb.get b1 = cb.get b →
      ∃ w' pv',
        CopyH ca cb w ⟨some pa, some pb⟩ = .ok (w', pv') ∧
        GetH ca cb w ⟨some pa, some pb⟩ = .ok (ca.get a, cb.get b) ∧
        GetH ca cb w' pv' = .ok (ca.get a, cb.get b) ∧
        GetH ca cb w' ⟨some pa, some pb⟩ = .ok (ca.get a, cb.get b) ∧
        (∀ v : σa × σb,
          GetH ca cb (SetH ca cb w' v).1 pv' = .ok (ca.get a, cb.get b) ∧
          GetH ca cb (SetH ca cb w' v).1 ⟨some pa, some pb⟩ =
            .ok (ca.get a, cb.get b))) ∧
    (∀ (w : Wld α β) (sp : Option Nat),
      CopyH ca cb w ⟨none, sp⟩ = .ok (mkDefaultH ca cb w) ∧
      (mkDefaultH ca cb w).2.firstP.isSome = true ∧
      (mkDefaultH ca cb w).2.secondP.isSome = true ∧
      GetH ca cb (mkDefaultH ca cb w).1 (mkDefaultH ca cb w).2 =
        .ok (ca.get ca.createDefault, cb.get cb.createDefault)) := by
  constructor
  · intro w pa pb a b a1 b1 hra hrb hca hga hcb hgb
    have hext1 : w.Ext (mkDefaultH ca cb w).1 := ext_mkDefaultH ca cb w
    have hra1 : (mkDefaultH ca cb w).1.sa.read pa = some a := hext1.1 pa a hra
    have hrb1 : (mkDefaultH ca cb w).1.sb.read pb = some b := hext1.2 pb b hrb
    have hGorig : GetH ca cb w ⟨some pa, some pb⟩ = .ok (ca.get a, cb.get b) :=
      GetH_pair_of_reads ca cb w pa pb a b hra hrb
    have hq1 : ((mkDefaultH ca cb w).1.allocA a1).1.sa.read
        ((mkDefaultH ca cb w).1.allocA a1).2 = some a1 :=
      read_alloc_self (mkDefaultH ca cb w).1.sa a1
    have hq1' : (((mkDefaultH ca cb w).1.allocA a1).1.allocB b1).1.sa.read
        ((mkDefaultH ca cb w).1.allocA a1).2 = some a1 :=
      (ext_allocB ((mkDefaultH ca cb w).1.allocA a1).1 b1).1 _ _ hq1
    have hq2 : (((mkDefaultH ca cb w).1.allocA a1).1.allocB b1).1.sb.read
        (((mkDefaultH ca cb w).1.allocA a1).1.allocB b1).2 = some b1 :=
      read_alloc_self ((mkDefaultH ca cb w).1.allocA a1).1.sb b1
    have hGcopy : GetH ca cb (((mkDefaultH ca cb w).1.allocA a1).1.allocB b1).1
        ⟨some ((mkDefaultH ca cb w).1.allocA a1).2,
         some (((mkDefaultH ca cb w).1.allocA a1).1.allocB b1).2⟩ =
        .ok (ca.get a, cb.get b) := by
      have hg := GetH_pair_of_reads ca cb _ _ _ _ _ hq1' hq2
      rw [hga, hgb] at hg
      exact hg
    have hext : w.Ext (((mkDefaultH ca cb w).1.allocA a1).1.allocB b1).1 :=
      ext_trans hext1 (ext_trans (ext_allocA (mkDefaultH ca cb w).1 a1)
        (ext_allocB ((mkDefaultH ca cb w).1.allocA a1).1 b1))
    have hGorig' :
        GetH ca cb (((mkDefaultH ca cb w).1.allocA a1).1.allocB b1).1
          ⟨some pa, some pb⟩ = .ok (ca.get a, cb.get b) :=
      GetH_ok_ext ca cb _ _ hext hGorig
    refine ⟨(((mkDefaultH ca cb w).1.allocA a1).1.allocB b1).1,
            ⟨some ((mkDefaultH ca cb w).1.allocA a1).2,
             some (((mkDefaultH ca cb w).1.allocA a1).1.allocB b1).2⟩,
            ?_, hGorig, hGcopy, hGorig', ?_⟩
    · unfold CopyH
      dsimp only
      rw [hra1, hrb1]
      dsimp only
      rw [hca, hcb]
    · intro v
      have hsx := ext_SetH ca cb
        (((mkDefaultH ca cb w).1.allocA a1).1.allocB b1).1 v
      exact ⟨GetH_ok_ext ca cb _ _ hsx hGcopy, GetH_ok_ext ca cb _ _ hsx hGorig'⟩
  · intro w sp
    refine ⟨rfl, rfl, rfl, ?_⟩
    have h1 : (w.allocA ca.createDefault).1.sa.read
        (w.allocA ca.createDefault).2 = some ca.createDefault :=
      read_alloc_self w.sa ca.createDefault
    have h1' : ((w.allocA ca.createDefault).1.allocB cb.createDefault).1.sa.read
        (w.allocA ca.createDefault).2 = some ca.createDefault :=
      (ext_allocB (w.allocA ca.createDefault).1 cb.createDefault).1 _ _ h1
    have h2 : ((w.allocA ca.createDefault).1.allocB cb.createDefault).1.sb.read
        ((w.allocA ca.createDefault).1.allocB cb.createDefault).2 =
        some cb.createDefault :=
      read_alloc_self (w.allocA ca.createDefault).1.sb cb.createDefault
    exact GetH_pair_of_reads ca cb _ _ _ _ _ h1' h2

/-- Witness for C7 (amended): copying a concrete pair stored at addresses
`(0, 0)` holding `(5, true)`. -/
theorem C7_copy_deep_and_empty_default_witness :
    ((⟨⟨[5]⟩, ⟨[true]⟩⟩ : Wld Nat Bool).sa.read 0 = some 5) ∧
    ((⟨⟨[5]⟩, ⟨[true]⟩⟩ : Wld Nat Bool).sb.read 0 = some true) ∧
    (natComp.cast (natComp.copy 5) = some 5) ∧
    (boolComp.cast (boolComp.copy true) = some true) ∧
    (∃ w' pv',
      CopyH natComp boolComp ⟨⟨[5]⟩, ⟨[true]⟩⟩ ⟨some 0, some 0⟩ =
        .ok (w', pv') ∧
      GetH natComp boolComp (⟨⟨[5]⟩, ⟨[true]⟩⟩ : Wld Nat Bool)
        ⟨some 0, some 0⟩ = .ok (natComp.get 5, boolComp.get true) ∧
      GetH natComp boolComp w' pv' = .ok (natComp.get 5, boolComp.get true) ∧
      GetH natComp boolComp w' ⟨some 0, some 0⟩ =
        .ok (natComp.get 5, boolComp.get true) ∧
      (∀ v : Nat × Bool,
        GetH natComp boolComp (SetH natComp boolComp w' v).1 pv' =
          .ok (natComp.get 5, boolComp.get true) ∧
        GetH natComp boolComp (SetH natComp boolComp w' v).1
          ⟨some 0, some 0⟩ = .ok (natComp.get 5, boolComp.get true))) :=
  ⟨by decide, by decide, by decide, by decide,
   (C7_copy_deep_and_empty_default natComp boolComp).1
     ⟨⟨[5]⟩, ⟨[true]⟩⟩ 0 0 5 true 5 true (by decide) (by decide) (by decide)
     (by decide) (by decide) (by decide)⟩

/-- C8: both public constructors establish that both components are
present, `Set` and `DeserializeFromString` (whether it succeeds or
fails with a boolean) preserve this, and `Get` on a `PairValue` with
both components present never reads an absent component (it returns a
normal result, never the null-dereference outcome). -/
theorem C8_constructors_establish_and_ops_preserve_presence
    {V α β σa σb : Type} (ca : Comp V α σa) (cb : Comp V β σb) :
    ((PairValueS.mkDefaultCtor ca cb).m_first.isSome = true ∧
     (PairValueS.mkDefaultCtor ca cb).m_second.isSome = true) ∧
    (∀ v : σa × σb, (PairValueS.mkFromResult ca cb v).m_first.isSome = true ∧
      (PairValueS.mkFromResult ca cb v).m_second.isSome = true) ∧
    (∀ (pv : PairValueS α β) (v : σa × σb),
      (PairValueS.Set ca cb pv v).m_first.isSome = true ∧
      (PairValueS.Set ca cb pv v).m_second.isSome = true) ∧
    (∀ (pv : PairValueS α β) (value : List Char) (checker : OuterChecker V)
      (b : Bool) (pv' : PairValueS α β),
      pv.m_first.isSome = true → pv.m_second.isSome = true →
      PairValueS.DeserializeFromString ca cb pv value checker = .ok (b, pv') →
      pv'.m_first.isSome = true ∧ pv'.m_second.isSome = true) ∧
    (∀ pv : PairValueS α β, pv.m_first.isSome = true →
      pv.m_second.isSome = true →
      ∃ g, PairValueS.Get ca cb pv = .ok g) := by
  refine ⟨⟨rfl, rfl⟩, fun v => ⟨rfl, rfl⟩, fun pv v => ⟨rfl, rfl⟩, ?_, ?_⟩
  · intro pv value checker b pv' h1 h2 hd
    rcases deser_cases ca cb pv value checker with hc | hc | ⟨a0, b0, hc⟩ <;>
      rw [hc] at hd
    · cases hd
    · obtain ⟨hb, hpv⟩ := Prod.mk.injEq .. ▸ CppOutcome.ok.inj hd
      rw [← hpv]
      exact ⟨h1, h2⟩
    · obtain ⟨hb, hpv⟩ := Prod.mk.injEq .. ▸ CppOutcome.ok.inj hd
      rw [← hpv]
      exact ⟨rfl, rfl⟩
  · intro pv h1 h2
    rcases pv with ⟨fp, sp⟩
    cases fp with
    | none => simp at h1
    | some a =>
      cases sp with
      | none => simp at h2
      | some b => exact ⟨(ca.get a, cb.get b), rfl⟩

/-- Witness for C8: the preservation part at a successful concrete
deserialization and the `Get` part on the concrete prior value. -/
theorem C8_constructors_establish_and_ops_preserve_presence_witness :
    (pvPrior.m_first.isSome = true) ∧ (pvPrior.m_second.isSome = true) ∧
    (PairValueS.DeserializeFromString natComp boolComp pvPrior "1 true".data
      (.pair pcNatBool) = .ok (true, ⟨some 1, some true⟩)) ∧
    ((⟨some 1, some true⟩ : PairValueS Nat Bool).m_first.isSome = true ∧
     (⟨some 1, some true⟩ : PairValueS Nat Bool).m_second.isSome = true) ∧
    (∃ g, PairValueS.Get natComp boolComp pvPrior = .ok g) :=
  ⟨by decide, by decide, by decide,
   (C8_constructors_establish_and_ops_preserve_presence natComp
     boolComp).2.2.2.1 pvPrior "1 true".data (.pair pcNatBool) true
     ⟨some 1, some true⟩ (by decide) (by decide) (by decide),
   (C8_constructors_establish_and_ops_preserve_presence natComp
     boolComp).2.2.2.2 pvPrior (by decide) (by decide)⟩

/-- C9: the name generated by `MakePairChecker<A,B>()` is a deterministic
function of the ordered component-type pair (it is a pure function of
the two `typeid` names), and it is injective: two ordered type
combinations generate the same name exactly when both components agree,
assuming distinct types have distinct `typeid` names and mangled type
names never contain a comma. -/
theorem C9_checker_name_deterministic_and_injective {τ : Type}
    (tn : τ → List Char) (hinj : ∀ t t', tn t = tn t' → t = t')
    (hc : ∀ t, ',' ∉ tn t) (a b a' b' : τ) :
    MakePairCheckerName tn a b = MakePairCheckerName tn a' b' ↔
      (a = a' ∧ b = b') := by
  constructor
  · intro h
    unfold MakePairCheckerName at h
    simp only [List.append_assoc, List.cons_append, List.nil_append,
               List.cons.injEq, true_and] at h
    obtain ⟨ha, ht⟩ :=
      append_cons_inj (tn a) (tn a') _ _ (hc a) (hc a') h
    have ht2 := (List.cons.inj ht).2
    have hb := List.append_cancel_right ht2
    exact ⟨hinj _ _ ha, hinj _ _ hb⟩
  · rintro ⟨rfl, rfl⟩
    rfl

/-- Witness for C9: with a concrete two-type universe and comma-free
injective type names, swapping the component types changes the name. -/
theorem C9_checker_name_deterministic_and_injective_witness :
    (∀ t t', tnBool t = tnBool t' → t = t') ∧ (∀ t, ',' ∉ tnBool t) ∧
    (MakePairCheckerName tnBool true false =
      MakePairCheckerName tnBool false true ↔ (true = false ∧ false = true)) :=
  ⟨by decide, by decide,
   C9_checker_name_deterministic_and_injective tnBool (by decide) (by decide)
     true false false true⟩

/-- C10: on an input with more than two whitespace-delimited tokens,
`DeserializeFromString` reads only the first two tokens; if both are
accepted by their component checkers with matching component types, it
returns `true` and installs the two decoded components, whatever the
trailing tokens are. -/
theorem C10_trailing_tokens_ignored {V α β σa σb : Type}
    (ca : Comp V α σa) (cb : Comp V β σb) (pv : PairValueS α β)
    (value : List Char) (pc : PairCheckerS V) (fchk schk : AttrChecker V)
    (t0 t1 : List Char) (rest : List (List Char)) (v0 : V) (a0 : α)
    (v1 : V) (b1 : β)
    (htoks : cppTokens value = t0 :: t1 :: rest)
    (hf : pc.m_firstchecker = some fchk) (hs : pc.m_secondchecker = some schk)
    (hv0 : fchk.createValidValue t0 = some v0) (ha0 : ca.cast v0 = some a0)
    (hv1 : schk.createValidValue t1 = some v1) (hb1 : cb.cast v1 = some b1) :
    PairValueS.DeserializeFromString ca cb pv value (.pair pc) =
      .ok (true, ⟨some a0, some b1⟩) :=
  deser_ok_of_two_tokens ca cb pv value pc fchk schk t0 t1 rest v0 a0 v1 b1
    htoks hf hs hv0 ha0 hv1 hb1

/-- Witness for C10: the three-token input `"1 true 99"` deserializes
successfully to `(1, true)`, silently ignoring the trailing `"99"`. -/
theorem C10_trailing_tokens_ignored_witness :
    (cppTokens "1 true 99".data = ["1".data, "true".data, "99".data]) ∧
    (PairValueS.DeserializeFromString natComp boolComp pvPrior
      "1 true 99".data (.pair pcNatBool) = .ok (true, ⟨some 1, some true⟩)) :=
  ⟨by simp [cppTokens, isWS],
   C10_trailing_tokens_ignored natComp boolComp pvPrior "1 true 99".data
     pcNatBool natChecker boolChecker "1".data "true".data ["99".data]
     (.n 1) 1 (.b true) true (by simp [cppTokens, isWS]) rfl rfl
     (by decide) (by decide) (by decide) (by decide)⟩

end NS3Pair
